import Mathlib

/-!
# Index buffers: a verification development

Two small OpenGL programs are embedded here:

* `src/source/main.cpp` (namespace `Source`): a 2D quad drawn from four
  vertices and six `unsigned int` indices, without a vertex array object;
* `src/BasicOpenGLIndexBuffer/main.cpp` (namespace `Basic`): the same quad with
  interleaved position and colour, `GLushort` indices, a vertex array object
  and a world matrix.

`GLfloat` values are embedded as exact numbers (rationals for the literal
vertex data, an arbitrary commutative ring for the matrix algebra), so rounding
is outside the model.  Every literal that occurs in the vertex data
(`0`, `1`, `0.5` and their negations) is exactly representable in binary
floating point.
-/

namespace IndexBuffers

/-! ## Geometry helpers: how `GL_TRIANGLES` consumes an index sequence -/

/-- A 2D point, the two floats of one vertex of `src/source/main.cpp`. -/
abbrev Vec2 := ℚ × ℚ

/-- Vertex fetch for the layout `glVertexAttribPointer(0, 2, GL_FLOAT, GL_FALSE, 0, 0)`:
vertex `i` is the pair of floats at positions `2*i` and `2*i+1` of the array. -/
def fetchVertex (data : List ℚ) (i : Nat) : Vec2 :=
  (data.getD (2 * i) 0, data.getD (2 * i + 1) 0)

/-- Primitive assembly of `GL_TRIANGLES`: indices are consumed three at a time,
an incomplete trailing group is dropped. -/
def assembleTriangles : List Nat → List (Nat × Nat × Nat)
  | a :: b :: c :: rest => (a, b, c) :: assembleTriangles rest
  | _ => []

/-- Edge function of the directed edge `a → b` evaluated at `p` (twice the signed
area of the triangle `a b p`). -/
def edge (a b p : Vec2) : ℚ :=
  (b.1 - a.1) * (p.2 - a.2) - (b.2 - a.2) * (p.1 - a.1)

/-- Twice the signed area of the triangle `t`. -/
def signedArea2 (t : Vec2 × Vec2 × Vec2) : ℚ :=
  edge t.1 t.2.1 t.2.2

/-- The point `p` lies in the closed triangle `t`: the three edge functions have
the same weak sign. -/
def inTriangle (t : Vec2 × Vec2 × Vec2) (p : Vec2) : Prop :=
  (0 ≤ edge t.1 t.2.1 p ∧ 0 ≤ edge t.2.1 t.2.2 p ∧ 0 ≤ edge t.2.2 t.1 p) ∨
  (edge t.1 t.2.1 p ≤ 0 ∧ edge t.2.1 t.2.2 p ≤ 0 ∧ edge t.2.2 t.1 p ≤ 0)

/-- The point `p` lies in the open interior of the triangle `t`: the three edge
functions have the same strict sign. -/
def inInterior (t : Vec2 × Vec2 × Vec2) (p : Vec2) : Prop :=
  (0 < edge t.1 t.2.1 p ∧ 0 < edge t.2.1 t.2.2 p ∧ 0 < edge t.2.2 t.1 p) ∨
  (edge t.1 t.2.1 p < 0 ∧ edge t.2.1 t.2.2 p < 0 ∧ edge t.2.2 t.1 p < 0)

instance (t : Vec2 × Vec2 × Vec2) (p : Vec2) : Decidable (inTriangle t p) := by
  unfold inTriangle; infer_instance

instance (t : Vec2 × Vec2 × Vec2) (p : Vec2) : Decidable (inInterior t p) := by
  unfold inInterior; infer_instance

/-- The closed square `[-0.5, 0.5]²`. -/
def inSquare (p : Vec2) : Prop :=
  -(1 / 2 : ℚ) ≤ p.1 ∧ p.1 ≤ 1 / 2 ∧ -(1 / 2 : ℚ) ≤ p.2 ∧ p.2 ≤ 1 / 2

instance (p : Vec2) : Decidable (inSquare p) := by
  unfold inSquare; infer_instance

namespace Source

/-- The array `verticesOnlyExample` of `src/source/main.cpp`: the square as six
un-indexed vertices (12 floats). -/
def verticesOnlyExample : List ℚ :=
  [-(1 / 2),  1 / 2,
    1 / 2,  1 / 2,
   -(1 / 2), -(1 / 2),
   -(1 / 2), -(1 / 2),
    1 / 2,  1 / 2,
    1 / 2, -(1 / 2)]

/-- The array `verticesWithIndex` of `src/source/main.cpp`: four vertices (8 floats). -/
def verticesWithIndex : List ℚ :=
  [-(1 / 2),  1 / 2,
    1 / 2,  1 / 2,
   -(1 / 2), -(1 / 2),
    1 / 2, -(1 / 2)]

/-- The array `indices` of `src/source/main.cpp`. -/
def indices : List Nat :=
  [0, 1, 2,
   2, 1, 3]

/-- The vertex stream obtained by looking every index up in `verticesWithIndex`,
flattened to floats in index order. -/
def expandIndexed (verts : List ℚ) (idx : List Nat) : List ℚ :=
  idx.flatMap (fun i => [(fetchVertex verts i).1, (fetchVertex verts i).2])

/-- The triangles drawn from `verticesWithIndex` through `indices`. -/
def triangles : List (Vec2 × Vec2 × Vec2) :=
  (assembleTriangles indices).map
    (fun t => (fetchVertex verticesWithIndex t.1,
               fetchVertex verticesWithIndex t.2.1,
               fetchVertex verticesWithIndex t.2.2))

end Source

/-! ## The OpenGL and GLFW calls made by the programs

A run of a program is embedded as the sequence of library calls it issues.  The
arguments kept are the ones the programs pass; `GL_FLOAT`, `GL_FALSE` and
`GL_STATIC_DRAW`, which are the same at every call site, are left implicit, as is
the window pointer.  The effect of the calls on the graphics context is given by
`step`, a small model of the part of the OpenGL state the programs touch: buffer
data stores, buffer bindings, vertex array state and the viewport. -/

/-- The program variables that hold OpenGL object names: the globals `vbo` and
`indexBuffer` of `src/source/main.cpp` and the fields `VAO`, `VBO`, `IBO` of `quad`
in `src/BasicOpenGLIndexBuffer/main.cpp`. -/
inductive Var
  | vbo | indexBuffer | quadVAO | quadVBO | quadIBO
  deriving DecidableEq, Repr

/-- An object-name argument: the literal `0` or the current value of a variable. -/
inductive Name
  | zero
  | var (v : Var)
  deriving DecidableEq, Repr

/-- The first argument of `glBindBuffer` / `glBufferData`.  `other 0` is the literal
`0` passed in `glBindBuffer(0, quad.IBO)`, which is not a buffer target. -/
inductive Target
  | GL_ARRAY_BUFFER
  | GL_ELEMENT_ARRAY_BUFFER
  | other (code : Nat)
  deriving DecidableEq, Repr

/-- The index type named in `glDrawElements`. -/
inductive IndexType
  | GL_UNSIGNED_INT
  | GL_UNSIGNED_SHORT
  deriving DecidableEq, Repr

/-- Width in bytes of one index of the given type. -/
def IndexType.width : IndexType → Nat
  | .GL_UNSIGNED_INT => 4
  | .GL_UNSIGNED_SHORT => 2

/-- The primitive mode named in `glDrawElements`. -/
inductive Mode
  | GL_TRIANGLES
  deriving DecidableEq, Repr

/-- The `glm::vec3` of three floats. -/
structure vec3 (α : Type) where
  x : α
  y : α
  z : α
  deriving DecidableEq, Repr

/-- The size `sizeof(float)` in bytes. -/
def sizeof_float : Nat := 4

/-- The size `sizeof(unsigned int)` in bytes. -/
def sizeof_uint : Nat := 4

/-- The size `sizeof(GLushort)` in bytes. -/
def sizeof_GLushort : Nat := 2

/-- The size `sizeof(glm::vec3)` in bytes: three floats, no padding. -/
def sizeof_vec3 : Nat := 3 * sizeof_float

/-- Client memory handed to `glBufferData`: the array the data pointer points at. -/
inductive Payload
  | floats (l : List ℚ)
  | vec3s (l : List (vec3 ℚ))
  | uints (l : List Nat)
  | ushorts (l : List Nat)
  deriving DecidableEq

/-- Size in bytes of one element of the client array. -/
def Payload.elemSize : Payload → Nat
  | .floats _ => sizeof_float
  | .vec3s _ => sizeof_vec3
  | .uints _ => sizeof_uint
  | .ushorts _ => sizeof_GLushort

/-- Number of elements of the client array. -/
def Payload.length : Payload → Nat
  | .floats l => l.length
  | .vec3s l => l.length
  | .uints l => l.length
  | .ushorts l => l.length

/-- The first `n` elements of the client array. -/
def Payload.take (n : Nat) : Payload → Payload
  | .floats l => .floats (l.take n)
  | .vec3s l => .vec3s (l.take n)
  | .uints l => .uints (l.take n)
  | .ushorts l => .ushorts (l.take n)

/-- The array read as a sequence of indices (empty for float data). -/
def Payload.indexValues : Payload → List Nat
  | .uints l => l
  | .ushorts l => l
  | _ => []

/-- The hints passed to `glfwWindowHint`. -/
inductive Hint
  | GLFW_CONTEXT_VERSION_MAJOR
  | GLFW_CONTEXT_VERSION_MINOR
  | GLFW_OPENGL_PROFILE
  | GLFW_OPENGL_FORWARD_COMPAT
  | GLFW_RESIZABLE
  deriving DecidableEq, Repr

/-- The constant `GL_TRUE`. -/
def GL_TRUE : Int := 1

/-- The constant `GL_FALSE`. -/
def GL_FALSE : Int := 0

/-- The constant `GLFW_OPENGL_CORE_PROFILE` of `glfw3.h`. -/
def GLFW_OPENGL_CORE_PROFILE : Int := 0x00032001

/-- One library call of a run. -/
inductive Call
  | glfwInit
  | glfwWindowHint (hint : Hint) (value : Int)
  | glfwCreateWindow (width height : Int) (title : String)
  | glfwGetFramebufferSize
  | glfwMakeContextCurrent
  | glfwSetFramebufferSizeCallback
  | glewInit
  | glViewport (x y width height : Int)
  | glGenBuffers (v : Var)
  | glGenVertexArrays (v : Var)
  | glBindBuffer (target : Target) (name : Name)
  | glBindVertexArray (name : Name)
  | glBufferData (target : Target) (size : Nat) (data : Payload)
  | glEnableVertexAttribArray (index : Nat)
  | glDisableVertexAttribArray (index : Nat)
  | glVertexAttribPointer (index size stride pointer : Nat)
  | Shader_load
  | Shader_use
  | glfwWindowShouldClose
  | glfwPollEvents
  | glClearColor (r g b a : ℚ)
  | glClear
  | glUniformMatrix4fv (location count : Nat)
  | glDrawElements (mode : Mode) (count : Nat) (type : IndexType) (offset : Nat)
  | glfwSwapBuffers
  | glDeleteVertexArrays (v : Var)
  | glDeleteBuffers (v : Var)
  | glfwTerminate
  deriving DecidableEq

/-- The call is a draw call. -/
def Call.isDraw : Call → Bool
  | .glDrawElements _ _ _ _ => true
  | _ => false

/-- The call creates a buffer object name. -/
def Call.isGenBuffers : Call → Bool
  | .glGenBuffers _ => true
  | _ => false

/-- The call deletes a buffer object. -/
def Call.isDeleteBuffers : Call → Bool
  | .glDeleteBuffers _ => true
  | _ => false

/-- The call is the library teardown `glfwTerminate`. -/
def Call.isTerminate : Call → Bool
  | .glfwTerminate => true
  | _ => false

/-- The call allocates or re-allocates buffer storage (creates a name or a data store). -/
def Call.allocates : Call → Bool
  | .glGenBuffers _ => true
  | .glGenVertexArrays _ => true
  | .glBufferData _ _ _ => true
  | _ => false

/-- The call is an OpenGL call (`gl*`), as opposed to a GLFW, GLEW or shader-class call. -/
def Call.isGraphics : Call → Bool
  | .glViewport _ _ _ _ => true
  | .glGenBuffers _ => true
  | .glGenVertexArrays _ => true
  | .glBindBuffer _ _ => true
  | .glBindVertexArray _ => true
  | .glBufferData _ _ _ => true
  | .glEnableVertexAttribArray _ => true
  | .glDisableVertexAttribArray _ => true
  | .glVertexAttribPointer _ _ _ _ => true
  | .glClearColor _ _ _ _ => true
  | .glClear => true
  | .glUniformMatrix4fv _ _ => true
  | .glDrawElements _ _ _ _ => true
  | .glDeleteVertexArrays _ => true
  | .glDeleteBuffers _ => true
  | _ => false

/-- The call is a GLFW window-library call (`glfw*`). -/
def Call.isWindow : Call → Bool
  | .glfwInit => true
  | .glfwWindowHint _ _ => true
  | .glfwCreateWindow _ _ _ => true
  | .glfwGetFramebufferSize => true
  | .glfwMakeContextCurrent => true
  | .glfwSetFramebufferSizeCallback => true
  | .glfwWindowShouldClose => true
  | .glfwPollEvents => true
  | .glfwSwapBuffers => true
  | .glfwTerminate => true
  | _ => false

/-! ## Context state -/

/-- The values of the program variables that hold object names. -/
structure Vars where
  vbo : Nat
  indexBuffer : Nat
  quadVAO : Nat
  quadVBO : Nat
  quadIBO : Nat
  deriving DecidableEq, Repr

/-- Read a variable. -/
def Vars.get (vs : Vars) : Var → Nat
  | .vbo => vs.vbo
  | .indexBuffer => vs.indexBuffer
  | .quadVAO => vs.quadVAO
  | .quadVBO => vs.quadVBO
  | .quadIBO => vs.quadIBO

/-- Assign a variable. -/
def Vars.set (vs : Vars) (v : Var) (n : Nat) : Vars :=
  match v with
  | .vbo => { vs with vbo := n }
  | .indexBuffer => { vs with indexBuffer := n }
  | .quadVAO => { vs with quadVAO := n }
  | .quadVBO => { vs with quadVBO := n }
  | .quadIBO => { vs with quadIBO := n }

/-- The value of an object-name argument. -/
def Name.value (vs : Vars) : Name → Nat
  | .zero => 0
  | .var v => vs.get v

/-- The data store of a buffer object: its size in bytes and the elements copied
into it. -/
structure Store where
  size : Nat
  data : Payload
  deriving DecidableEq

/-- One generic vertex attribute array: the state set by
`glEnableVertexAttribArray` and `glVertexAttribPointer` (component type `GL_FLOAT`). -/
structure Attrib where
  enabled : Bool
  size : Nat
  stride : Nat
  pointer : Nat
  buffer : Nat
  deriving DecidableEq, Repr

/-- Vertex array state: the attribute arrays and the element array buffer binding. -/
structure VertexArray where
  attribs : List Attrib
  elementBuffer : Nat
  deriving DecidableEq, Repr

/-- The initial state of one attribute array. -/
def Attrib.initial : Attrib :=
  { enabled := false, size := 4, stride := 0, pointer := 0, buffer := 0 }

/-- The initial state of a vertex array: sixteen disabled attributes, no element buffer. -/
def VertexArray.initial : VertexArray :=
  { attribs := List.replicate 16 Attrib.initial, elementBuffer := 0 }

/-- The modelled state: program variables and graphics context. -/
structure State where
  vars : Vars
  nextBuffer : Nat
  nextVertexArray : Nat
  stores : List (Nat × Store)
  arrayBuffer : Nat
  vertexArray : Nat
  vertexArrays : List (Nat × VertexArray)
  viewport : Int × Int × Int × Int
  deriving DecidableEq

/-- The state of a fresh context: no object exists, nothing is bound. -/
def State.initial : State :=
  { vars := ⟨0, 0, 0, 0, 0⟩, nextBuffer := 1, nextVertexArray := 1, stores := [],
    arrayBuffer := 0, vertexArray := 0, vertexArrays := [], viewport := (0, 0, 0, 0) }

/-- The data store of buffer `name`, if it has one. -/
def State.store (s : State) (name : Nat) : Option Store :=
  (s.stores.find? (fun e => e.1 == name)).map Prod.snd

/-- The state of the vertex array currently bound. -/
def State.currentVertexArray (s : State) : VertexArray :=
  ((s.vertexArrays.find? (fun e => e.1 == s.vertexArray)).map Prod.snd).getD VertexArray.initial

/-- Replace the state of the vertex array currently bound. -/
def State.setCurrentVertexArray (s : State) (va : VertexArray) : State :=
  { s with vertexArrays :=
      (s.vertexArray, va) :: s.vertexArrays.filter (fun e => e.1 != s.vertexArray) }

/-- The buffer bound to a target (`0` for no buffer or no such target). -/
def State.binding (s : State) : Target → Nat
  | .GL_ARRAY_BUFFER => s.arrayBuffer
  | .GL_ELEMENT_ARRAY_BUFFER => s.currentVertexArray.elementBuffer
  | .other _ => 0

/-- Update attribute `index` of the current vertex array. -/
def State.modifyAttrib (s : State) (index : Nat) (f : Attrib → Attrib) : State :=
  let va := s.currentVertexArray
  s.setCurrentVertexArray { va with attribs := va.attribs.modify f index }

/-- Effect of one call on the state.  Calls that GL rejects (an invalid target,
`glBufferData` with no buffer bound) leave the state unchanged; calls that do not
touch the modelled state are the identity. -/
def step (c : Call) (s : State) : State :=
  match c with
  | .glViewport x y w h => { s with viewport := (x, y, w, h) }
  | .glGenBuffers v =>
      { s with vars := s.vars.set v s.nextBuffer, nextBuffer := s.nextBuffer + 1 }
  | .glGenVertexArrays v =>
      { s with vars := s.vars.set v s.nextVertexArray, nextVertexArray := s.nextVertexArray + 1 }
  | .glBindBuffer .GL_ARRAY_BUFFER name => { s with arrayBuffer := name.value s.vars }
  | .glBindBuffer .GL_ELEMENT_ARRAY_BUFFER name =>
      s.setCurrentVertexArray { s.currentVertexArray with elementBuffer := name.value s.vars }
  | .glBindBuffer (.other _) _ => s
  | .glBindVertexArray name => { s with vertexArray := name.value s.vars }
  | .glBufferData target size data =>
      let b := s.binding target
      if b = 0 then s
      else { s with stores :=
               (b, { size := size, data := data.take (size / data.elemSize) }) ::
                 s.stores.filter (fun e => e.1 != b) }
  | .glEnableVertexAttribArray i => s.modifyAttrib i (fun a => { a with enabled := true })
  | .glDisableVertexAttribArray i => s.modifyAttrib i (fun a => { a with enabled := false })
  | .glVertexAttribPointer i size stride pointer =>
      s.modifyAttrib i
        (fun a => { a with size := size, stride := stride, pointer := pointer,
                           buffer := s.arrayBuffer })
  | .glDeleteBuffers v =>
      let b := s.vars.get v
      if b = 0 then s
      else
        let va := s.currentVertexArray
        let s1 : State :=
          { s with stores := s.stores.filter (fun e => e.1 != b),
                   arrayBuffer := if s.arrayBuffer = b then 0 else s.arrayBuffer }
        if va.elementBuffer = b ∨ va.attribs.any (fun a => a.buffer == b) then
          s1.setCurrentVertexArray
            { attribs := va.attribs.map
                (fun a => if a.buffer = b then { a with buffer := 0 } else a),
              elementBuffer := if va.elementBuffer = b then 0 else va.elementBuffer }
        else s1
  | .glDeleteVertexArrays v =>
      let n := s.vars.get v
      if n = 0 then s
      else { s with vertexArrays := s.vertexArrays.filter (fun e => e.1 != n),
                    vertexArray := if s.vertexArray = n then 0 else s.vertexArray }
  | _ => s

/-- Effect of a sequence of calls, in order. -/
def exec : List Call → State → State
  | [], s => s
  | c :: cs, s => exec cs (step c s)

/-- Distance in bytes between consecutive vertices of an attribute: the stride, or
the tightly packed element size when the stride is `0`. -/
def Attrib.effectiveStride (a : Attrib) : Nat :=
  if a.stride = 0 then a.size * sizeof_float else a.stride

/-- The indices a `glDrawElements(mode, count, type, offset)` call reads in state `s`. -/
def indicesRead (s : State) (count : Nat) (type : IndexType) (offset : Nat) : List Nat :=
  match s.store s.currentVertexArray.elementBuffer with
  | none => []
  | some st => (st.data.indexValues.drop (offset / type.width)).take count

/-- The byte range `[pointer + i*stride, pointer + i*stride + size*4)` that attribute
`a` reads for vertex `i` lies inside the data store of the buffer it sources. -/
def attribInBounds (s : State) (a : Attrib) (i : Nat) : Prop :=
  match s.store a.buffer with
  | none => False
  | some st => a.pointer + i * a.effectiveStride + a.size * sizeof_float ≤ st.size

instance (s : State) (a : Attrib) (i : Nat) : Decidable (attribInBounds s a i) := by
  unfold attribInBounds; split <;> infer_instance

/-- The states in which the draw calls of a call sequence are issued, paired with
the draw call, in order. -/
def drawStates : List Call → State → List (State × Call)
  | [], _ => []
  | c :: cs, s => (if c.isDraw then [(s, c)] else []) ++ drawStates cs (step c s)

/-! ## Runs -/

/-- What the environment returns to a run: whether each initialization call
succeeds, the framebuffer size reported by `glfwGetFramebufferSize`, and for each
iteration of the render loop (each time `glfwWindowShouldClose` returns false) the
framebuffer resize events delivered while `glfwPollEvents` runs. -/
structure Env where
  glfwInitOk : Bool
  windowOk : Bool
  glewInitOk : Bool
  framebufferSize : Int × Int
  frames : List (List (Int × Int))

/-- The observable result of a run: the calls issued in order, the lines written
to standard output, and the exit status.  The exit status is `none` when the run
hands a library call an argument the library does not accept (a null window, an
OpenGL entry point that was never loaded): from there on the program text does not
determine what happens, and nothing is stated about how the run ends. -/
structure Outcome where
  calls : List Call
  stdout : List String
  exit : Option Int

/-- The constant `EXIT_FAILURE`. -/
def EXIT_FAILURE : Int := 1

/-- The constant `EXIT_SUCCESS`. -/
def EXIT_SUCCESS : Int := 0

/-- The ways the upload step of the specification can fail. -/
inductive UploadError
  | InvalidIndexError
  | DeviceError
  deriving DecidableEq, Repr

/-! ## `src/source/main.cpp` -/

namespace Source

/-- The function `resizeCallback(window, width, height)`: its body is the single
call `glViewport(0, 0, width, height)`. -/
def resizeCallback (width height : Int) : List Call :=
  [.glViewport 0 0 width height]

/-- Lines 47-58 of `main`: library and window initialization.  No return value is
inspected. -/
def init : List Call :=
  [.glfwInit,
   .glfwCreateWindow 800 600 "Index Buffering!",
   .glfwMakeContextCurrent,
   .glfwSetFramebufferSizeCallback,
   .glewInit]

/-- Lines 135-160 of `main`: creation and filling of `vbo` and `indexBuffer`. -/
def upload : List Call :=
  [.glGenBuffers .vbo,
   .glBindBuffer .GL_ARRAY_BUFFER (.var .vbo),
   .glBufferData .GL_ARRAY_BUFFER (sizeof_float * 8) (.floats verticesWithIndex),
   .glBindBuffer .GL_ARRAY_BUFFER .zero,
   .glGenBuffers .indexBuffer,
   .glBindBuffer .GL_ARRAY_BUFFER (.var .indexBuffer),
   .glBufferData .GL_ARRAY_BUFFER (sizeof_uint * 6) (.uints indices),
   .glBindBuffer .GL_ARRAY_BUFFER .zero]

/-- Lines 171-222: the body of the render loop up to and including `glfwPollEvents`. -/
def body : List Call :=
  [.glClear,
   .glClearColor 0 0 0 0,
   .glBindBuffer .GL_ARRAY_BUFFER (.var .vbo),
   .glVertexAttribPointer 0 2 0 0,
   .glBindBuffer .GL_ARRAY_BUFFER .zero,
   .glBindBuffer .GL_ELEMENT_ARRAY_BUFFER (.var .indexBuffer),
   .glEnableVertexAttribArray 0,
   .glDrawElements .GL_TRIANGLES 6 .GL_UNSIGNED_INT 0,
   .glDisableVertexAttribArray 0,
   .glBindBuffer .GL_ELEMENT_ARRAY_BUFFER .zero,
   .glfwSwapBuffers,
   .glfwPollEvents]

/-- One iteration of the render loop: the loop test, the body, and the resize
callbacks that `glfwPollEvents` runs for the events of this iteration. -/
def frame (resizes : List (Int × Int)) : List Call :=
  .glfwWindowShouldClose :: body ++ resizes.flatMap (fun e => resizeCallback e.1 e.2)

/-- The render loop: one `frame` per iteration, then the loop test that ends it. -/
def loop : List (List (Int × Int)) → List Call
  | [] => [.glfwWindowShouldClose]
  | r :: rest => frame r ++ loop rest

/-- Lines 231-232: deletion of the two buffers. -/
def release : List Call :=
  [.glDeleteBuffers .vbo, .glDeleteBuffers .indexBuffer]

/-- The function `main` of `src/source/main.cpp`.  No result of an initialization
call is tested and the program has no output statement.  The field `calls` is the
sequence of calls the program text issues; `return 0` is the exit status of a run
whose three initialization calls succeeded.  When one of them failed, the later
calls receive a null window or go through OpenGL entry points that were not loaded,
so the exit status is left undetermined. -/
def main (env : Env) : Outcome :=
  { calls := init ++ upload ++ loop env.frames ++ release ++ [.glfwTerminate],
    stdout := [],
    exit :=
      if env.glfwInitOk = true ∧ env.windowOk = true ∧ env.glewInitOk = true then some 0
      else none }

/-- The upload section of `main` as a step that may fail.  The source has no test on
the indices, no error query and no early exit around these calls, so the step
always completes. -/
def Upload (s : State) : Except UploadError State :=
  .ok (exec upload s)

end Source

/-! ## `src/BasicOpenGLIndexBuffer/main.cpp` -/

/-- A 4x4 matrix (`glm::mat4`), indexed row then column. -/
abbrev mat4 (α : Type) := Matrix (Fin 4) (Fin 4) α

/-- The three GLM functions that `main` calls to build the world matrix. -/
structure GLM (α : Type) where
  translate : vec3 α → mat4 α
  yawPitchRoll : α → α → α → mat4 α
  scale : vec3 α → mat4 α

/-- Modelled from the spec: `glm::translate` (GLM is not under `src/`), the
"Translation(position)" matrix: the identity with the vector in the last column. -/
def glmTranslate {α : Type} [CommRing α] (v : vec3 α) : mat4 α :=
  !![1, 0, 0, v.x;
     0, 1, 0, v.y;
     0, 0, 1, v.z;
     0, 0, 0, 1]

/-- Modelled from the spec: `glm::scale` (GLM is not under `src/`), the
"Scale(scale)" matrix: the diagonal matrix of the vector. -/
def glmScale {α : Type} [CommRing α] (v : vec3 α) : mat4 α :=
  !![v.x, 0, 0, 0;
     0, v.y, 0, 0;
     0, 0, v.z, 0;
     0, 0, 0, 1]

/-- Modelled from the spec: `glm::yawPitchRoll` (GLM is not under `src/`), the
"RotationFromEuler(yaw, pitch, roll)" matrix: rotation about y by `yaw`, times
rotation about x by `pitch`, times rotation about z by `roll`.  The cosine and sine
functions are parameters. -/
def glmYawPitchRoll {α : Type} [CommRing α] (cos sin : α → α) (yaw pitch roll : α) : mat4 α :=
  let ch := cos yaw
  let sh := sin yaw
  let cp := cos pitch
  let sp := sin pitch
  let cb := cos roll
  let sb := sin roll
  !![ch * cb + sh * sp * sb, -ch * sb + sh * sp * cb, sh * cp, 0;
     sb * cp, cb * cp, -sp, 0;
     -sh * cb + ch * sp * sb, sb * sh + ch * sp * cb, ch * cp, 0;
     0, 0, 0, 1]

/-- The GLM functions as modelled above, for given cosine and sine. -/
def glm {α : Type} [CommRing α] (cos sin : α → α) : GLM α :=
  { translate := glmTranslate, yawPitchRoll := glmYawPitchRoll cos sin, scale := glmScale }

namespace Basic

/-- The struct `shape`.  The object names `VAO`, `VBO`, `IBO` live in `Vars`
(`quadVAO`, `quadVBO`, `quadIBO`), and `worldMatrix` is the function below, which
`main` evaluates every frame. -/
structure shape (α : Type) [Zero α] [One α] where
  vertices : List (vec3 α)
  scale : vec3 α := ⟨1, 1, 1⟩
  rotation : vec3 α := ⟨0, 0, 0⟩
  position : vec3 α := ⟨0, 0, 0⟩
  indicies : List Nat

/-- The constant `WIDTH`. -/
def WIDTH : Int := 800

/-- The constant `HEIGHT`. -/
def HEIGHT : Int := 600

/-- Lines 129-155: the value of `quad` after its vertices (position, colour
interleaved) and indices are assigned. -/
def quad (α : Type) [Field α] : shape α :=
  { vertices :=
      [⟨-(1 / 2), -(1 / 2), 0⟩, ⟨1, 0, 0⟩,
       ⟨1 / 2, -(1 / 2), 0⟩,    ⟨0, 1, 0⟩,
       ⟨-(1 / 2), 1 / 2, 0⟩,    ⟨0, 0, 1⟩,
       ⟨1 / 2, 1 / 2, 0⟩,       ⟨1, 0, 0⟩],
    indicies :=
      [0, 1, 2,
       2, 1, 3] }

/-- Lines 221-224: the world matrix expression
`glm::translate(position) * glm::yawPitchRoll(rotation.y, rotation.x, rotation.z) * glm::scale(scale)`. -/
def worldMatrix {α : Type} [CommRing α] (g : GLM α) (q : shape α) : mat4 α :=
  g.translate q.position *
  g.yawPitchRoll q.rotation.y q.rotation.x q.rotation.z *
  g.scale q.scale

/-- Lines 54-89: initialization up to the framebuffer size query, which precedes
the test of the window pointer. -/
def init : List Call :=
  [.glfwInit,
   .glfwWindowHint .GLFW_CONTEXT_VERSION_MAJOR 3,
   .glfwWindowHint .GLFW_CONTEXT_VERSION_MINOR 3,
   .glfwWindowHint .GLFW_OPENGL_PROFILE GLFW_OPENGL_CORE_PROFILE,
   .glfwWindowHint .GLFW_OPENGL_FORWARD_COMPAT GL_TRUE,
   .glfwWindowHint .GLFW_RESIZABLE GL_FALSE,
   .glfwCreateWindow WIDTH HEIGHT "Shaders Tutorial",
   .glfwGetFramebufferSize]

/-- Lines 159-191: creation and filling of the vertex buffer, the vertex array and
the index buffer of a shape. -/
def upload (q : shape ℚ) : List Call :=
  [.glGenBuffers .quadVBO,
   .glBindBuffer .GL_ARRAY_BUFFER (.var .quadVBO),
   .glGenVertexArrays .quadVAO,
   .glBindVertexArray (.var .quadVAO),
   .glBufferData .GL_ARRAY_BUFFER (sizeof_vec3 * q.vertices.length) (.vec3s q.vertices),
   .glEnableVertexAttribArray 0,
   .glVertexAttribPointer 0 3 (sizeof_vec3 * 2) 0,
   .glEnableVertexAttribArray 1,
   .glVertexAttribPointer 1 3 (sizeof_vec3 * 2) sizeof_vec3,
   .glGenBuffers .quadIBO,
   .glBindBuffer .GL_ELEMENT_ARRAY_BUFFER (.var .quadIBO),
   .glBufferData .GL_ELEMENT_ARRAY_BUFFER (sizeof_GLushort * q.indicies.length)
     (.ushorts q.indicies),
   .glBindBuffer (.other 0) (.var .quadIBO),
   .glBindVertexArray .zero]

/-- Lines 203-241: the body of the render loop.  The matrix passed to
`glUniformMatrix4fv` is `worldMatrix`; the call records location and count. -/
def body (q : shape ℚ) : List Call :=
  [.glfwPollEvents,
   .glClearColor (2 / 10) (3 / 10) (3 / 10) 1,
   .glClear,
   .glUniformMatrix4fv 2 1,
   .glBindVertexArray (.var .quadVAO),
   .glBindBuffer .GL_ELEMENT_ARRAY_BUFFER (.var .quadIBO),
   .glDrawElements .GL_TRIANGLES q.indicies.length .GL_UNSIGNED_SHORT 0,
   .glBindVertexArray .zero,
   .glBindBuffer (.other 0) (.var .quadIBO),
   .glfwSwapBuffers]

/-- One iteration of the render loop: the loop test and the body.  No resize
callback is registered in this program. -/
def frame (q : shape ℚ) : List Call :=
  .glfwWindowShouldClose :: body q

/-- The render loop with `n` iterations, then the loop test that ends it. -/
def loop (q : shape ℚ) : Nat → List Call
  | 0 => [.glfwWindowShouldClose]
  | n + 1 => frame q ++ loop q n

/-- Lines 245-250: deletion of the vertex array and the two buffers. -/
def release : List Call :=
  [.glDeleteVertexArrays .quadVAO, .glDeleteBuffers .quadVBO, .glDeleteBuffers .quadIBO]

/-- The function `main` of `src/BasicOpenGLIndexBuffer/main.cpp`.  The result of
`glfwInit` is not tested.  The window pointer is passed to `glfwGetFramebufferSize`
(line 89) before it is compared with `nullptr` (line 92), and GLFW requires a valid
window there; a run in which window creation failed is therefore followed up to
that call only, and its exit status is undetermined.  With a window, a failed
`glewInit` ends the run with the diagnostic and `EXIT_FAILURE`. -/
def main (env : Env) : Outcome :=
  if env.windowOk = false then
    { calls := init,
      stdout := [],
      exit := none }
  else if env.glewInitOk = false then
    { calls := init ++ [.glfwMakeContextCurrent, .glewInit],
      stdout := ["Failed to initialize GLEW"],
      exit := some EXIT_FAILURE }
  else
    { calls := init ++ [.glfwMakeContextCurrent, .glewInit,
                 .glViewport 0 0 env.framebufferSize.1 env.framebufferSize.2] ++
               upload (quad ℚ) ++ [.Shader_load, .Shader_use] ++
               loop (quad ℚ) env.frames.length ++ release ++ [.glfwTerminate],
      stdout := [],
      exit := some EXIT_SUCCESS }

/-- The upload section of `main` as a step that may fail.  The source has no test on
the indices, no error query and no early exit around these calls, so the step
always completes. -/
def Upload (q : shape ℚ) (s : State) : Except UploadError State :=
  .ok (exec (upload q) s)

/-- A shape whose index sequence refers to a vertex that does not exist. -/
def outOfRangeShape : shape ℚ :=
  { vertices := (quad ℚ).vertices, indicies := [0, 1, 9] }

end Basic

/-! ## Observations at a draw call and reference states -/

/-- The index values held by the data store bound as element array buffer. -/
def storedIndices (s : State) : List Nat :=
  match s.store s.currentVertexArray.elementBuffer with
  | none => []
  | some st => st.data.indexValues

/-- The attribute arrays that are enabled in the current vertex array. -/
def enabledAttribs (s : State) : List Attrib :=
  s.currentVertexArray.attribs.filter (fun a => a.enabled)

/-- A draw call reads nothing outside the bound data stores: the index range lies
inside the element array buffer and, for every index read, the byte range of every
enabled attribute lies inside the buffer the attribute sources. -/
def drawInBounds (s : State) : Call → Prop
  | .glDrawElements _ count type offset =>
      (∃ st, s.store s.currentVertexArray.elementBuffer = some st ∧
        offset + count * type.width ≤ st.size) ∧
      ∀ i ∈ indicesRead s count type offset, ∀ a ∈ enabledAttribs s, attribInBounds s a i
  | _ => True

/-- The draw call of `src/source/main.cpp`. -/
def Source.drawCall : Call :=
  .glDrawElements .GL_TRIANGLES 6 .GL_UNSIGNED_INT 0

/-- The draw call of `src/BasicOpenGLIndexBuffer/main.cpp` for a shape. -/
def Basic.drawCall (q : Basic.shape ℚ) : Call :=
  .glDrawElements .GL_TRIANGLES q.indicies.length .GL_UNSIGNED_SHORT 0

/-- State of `src/source/main.cpp` after the upload, with viewport `v`: `vbo` is
buffer 1 with 32 bytes, `indexBuffer` is buffer 2 with 24 bytes, nothing is bound. -/
def Source.ready (v : Int × Int × Int × Int) : State :=
  { vars := ⟨1, 2, 0, 0, 0⟩, nextBuffer := 3, nextVertexArray := 1,
    stores := [(2, ⟨24, .uints Source.indices⟩), (1, ⟨32, .floats Source.verticesWithIndex⟩)],
    arrayBuffer := 0, vertexArray := 0, vertexArrays := [], viewport := v }

/-- State of `src/source/main.cpp` at its draw call, with viewport `v`: attribute 0
is enabled and sources buffer 1, buffer 2 is the element array buffer. -/
def Source.drawing (v : Int × Int × Int × Int) : State :=
  { Source.ready v with
    vertexArrays :=
      [(0, { attribs := ⟨true, 2, 0, 0, 1⟩ :: List.replicate 15 Attrib.initial,
             elementBuffer := 2 })] }

/-- State of `src/source/main.cpp` after an iteration of the loop, with viewport
`v`: attribute 0 is disabled again and no element array buffer is bound. -/
def Source.steady (v : Int × Int × Int × Int) : State :=
  { Source.ready v with
    vertexArrays :=
      [(0, { attribs := ⟨false, 2, 0, 0, 1⟩ :: List.replicate 15 Attrib.initial,
             elementBuffer := 0 })] }

/-- The viewport after a sequence of resize events, starting from `v`. -/
def Source.viewportAfter (v : Int × Int × Int × Int) : List (Int × Int) → Int × Int × Int × Int
  | [] => v
  | e :: rest => Source.viewportAfter (0, 0, e.1, e.2) rest

/-- State of `src/BasicOpenGLIndexBuffer/main.cpp` after the upload of `quad`, with
viewport `v`: `VBO` is buffer 1 with 96 bytes, `IBO` is buffer 2 with 12 bytes,
`VAO` is vertex array 1 with attributes 0 and 1 enabled and buffer 2 as its element
array buffer; buffer 1 stays bound to `GL_ARRAY_BUFFER`, no vertex array is bound. -/
def Basic.ready (v : Int × Int × Int × Int) : State :=
  { vars := ⟨0, 0, 1, 1, 2⟩, nextBuffer := 3, nextVertexArray := 2,
    stores := [(2, ⟨12, .ushorts (Basic.quad ℚ).indicies⟩),
               (1, ⟨96, .vec3s (Basic.quad ℚ).vertices⟩)],
    arrayBuffer := 1, vertexArray := 0,
    vertexArrays :=
      [(1, { attribs := ⟨true, 3, 24, 0, 1⟩ :: ⟨true, 3, 24, 12, 1⟩ ::
                          List.replicate 14 Attrib.initial,
             elementBuffer := 2 })],
    viewport := v }

/-- State of `src/BasicOpenGLIndexBuffer/main.cpp` at its draw call: as `ready`,
with vertex array 1 bound. -/
def Basic.drawing (v : Int × Int × Int × Int) : State :=
  { Basic.ready v with vertexArray := 1 }

/-- The viewports in force at the draw calls of the render loop of
`src/source/main.cpp`, one per iteration, starting from viewport `v`. -/
def Source.drawViewports (v : Int × Int × Int × Int) :
    List (List (Int × Int)) → List (Int × Int × Int × Int)
  | [] => []
  | r :: rest => v :: Source.drawViewports (Source.viewportAfter v r) rest

/-- The viewport `main` of `src/BasicOpenGLIndexBuffer/main.cpp` sets from the
framebuffer size. -/
def Basic.viewportOf (env : Env) : Int × Int × Int × Int :=
  (0, 0, env.framebufferSize.1, env.framebufferSize.2)

/-- Ordering rule: no draw call comes after a buffer deletion. -/
def deleteThenNoDraw (a b : Call) : Prop :=
  a.isDeleteBuffers = true → b.isDraw = false

/-- Ordering rule: no buffer deletion comes after `glfwTerminate`. -/
def terminateThenNoDelete (a b : Call) : Prop :=
  a.isTerminate = true → b.isDeleteBuffers = false

/-- An environment in which the windowing library fails to initialize and every
later initialization step fails with it. -/
def failingEnv : Env :=
  { glfwInitOk := false, windowOk := false, glewInitOk := false,
    framebufferSize := (0, 0), frames := [] }

/-- An environment in which the window is created and the extension loader fails. -/
def glewFailingEnv : Env :=
  { glfwInitOk := true, windowOk := true, glewInitOk := false,
    framebufferSize := (800, 600), frames := [[], []] }

/-! ## Theorems -/

theorem Source.triangles_eq :
    Source.triangles =
      [((-(1 / 2), 1 / 2), (1 / 2, 1 / 2), (-(1 / 2), -(1 / 2))),
       ((-(1 / 2), -(1 / 2)), (1 / 2, 1 / 2), (1 / 2, -(1 / 2)))] := by
  simp [Source.triangles, Source.indices, Source.verticesWithIndex, assembleTriangles,
    fetchVertex]

/-- C9: looking up each entry of `indices` in `verticesWithIndex`, in order, gives
exactly the twelve floats of `verticesOnlyExample`. -/
theorem Source.indexed_expansion_eq_verticesOnlyExample :
    Source.expandIndexed Source.verticesWithIndex Source.indices = Source.verticesOnlyExample ∧
    Source.verticesOnlyExample.length = 12 ∧ Source.verticesWithIndex.length = 8 ∧
    Source.indices.length = 6 := by
  simp [Source.expandIndexed, Source.verticesWithIndex, Source.indices,
    Source.verticesOnlyExample, fetchVertex]

/-- C4: the four vertices with indices `0,1,2,2,1,3`, taken three at a time, give
exactly two triangles, both of non-zero area, with disjoint interiors, and a point
lies in the square `[-0.5,0.5]²` exactly when it lies in one of the two triangles. -/
theorem Source.quad_triangles_tile_square :
    Source.triangles.length = 2 ∧
    (∀ t ∈ Source.triangles, signedArea2 t ≠ 0) ∧
    (∀ p : Vec2, ¬ (inInterior (Source.triangles.getD 0 default) p ∧
                    inInterior (Source.triangles.getD 1 default) p)) ∧
    (∀ p : Vec2, inSquare p ↔ ∃ t ∈ Source.triangles, inTriangle t p) := by
  rw [Source.triangles_eq]
  refine ⟨rfl, ?_, ?_, ?_⟩
  · intro t ht
    simp only [List.mem_cons, List.mem_singleton, List.not_mem_nil, or_false] at ht
    rcases ht with rfl | rfl <;> norm_num [signedArea2, edge]
  · rintro ⟨x, y⟩
    simp only [List.getD_cons_zero, List.getD_cons_succ, inInterior, edge]
    rintro ⟨h1 | h1, h2 | h2⟩ <;> obtain ⟨a1, a2, a3⟩ := h1 <;> obtain ⟨b1, b2, b3⟩ := h2 <;>
      linarith
  · rintro ⟨x, y⟩
    simp only [List.mem_cons, List.mem_singleton, List.not_mem_nil, or_false, exists_eq_or_imp,
      exists_eq_left, inTriangle, inSquare, edge]
    constructor
    · rintro ⟨h1, h2, h3, h4⟩
      rcases le_total x y with h | h
      · left; right; refine ⟨?_, ?_, ?_⟩ <;> linarith
      · right; right; refine ⟨?_, ?_, ?_⟩ <;> linarith
    · rintro (h | h) <;> rcases h with ⟨a1, a2, a3⟩ | ⟨a1, a2, a3⟩ <;>
        refine ⟨?_, ?_, ?_, ?_⟩ <;> linarith

/-! ### The world matrix -/

/-- The modelled translation matrix moves a point by the vector. -/
theorem glmTranslate_mulVec {α : Type} [CommRing α] (v : vec3 α) (x y z : α) :
    (glmTranslate v).mulVec ![x, y, z, 1] = ![x + v.x, y + v.y, z + v.z, 1] := by
  funext i
  fin_cases i <;> simp [glmTranslate, Matrix.mulVec, Matrix.dotProduct, Fin.sum_univ_four]

/-- The modelled scale matrix multiplies a point componentwise. -/
theorem glmScale_mulVec {α : Type} [CommRing α] (v : vec3 α) (x y z : α) :
    (glmScale v).mulVec ![x, y, z, 1] = ![v.x * x, v.y * y, v.z * z, 1] := by
  funext i
  fin_cases i <;> simp [glmScale, Matrix.mulVec, Matrix.dotProduct, Fin.sum_univ_four]

/-- C2: for every position, rotation and scale the world matrix is
`translate(position) * yawPitchRoll(rotation.y, rotation.x, rotation.z) * scale(scale)`
in that order, and applying it to a point scales first, then rotates, then
translates. -/
theorem Basic.worldMatrix_translate_rotate_scale {α : Type} [CommRing α] (g : GLM α)
    (vertices : List (vec3 α)) (indicies : List Nat) (position rotation scale : vec3 α) :
    Basic.worldMatrix g
        { vertices := vertices, indicies := indicies,
          position := position, rotation := rotation, scale := scale } =
      g.translate position * g.yawPitchRoll rotation.y rotation.x rotation.z * g.scale scale ∧
    ∀ p : Fin 4 → α,
      (Basic.worldMatrix g
          { vertices := vertices, indicies := indicies,
            position := position, rotation := rotation, scale := scale }).mulVec p =
        (g.translate position).mulVec
          ((g.yawPitchRoll rotation.y rotation.x rotation.z).mulVec ((g.scale scale).mulVec p)) := by
  refine ⟨rfl, fun p => ?_⟩
  simp [Basic.worldMatrix, Matrix.mulVec_mulVec, Matrix.mul_assoc]

/-- C3: with the default field values of `shape` (position `(0,0,0)`, rotation
`(0,0,0)`, scale `(1,1,1)`), which are also the values `quad` has, the world matrix
is the identity, for any cosine and sine with `cos 0 = 1` and `sin 0 = 0`. -/
theorem Basic.worldMatrix_default_eq_one {α : Type} [Field α] (cos sin : α → α)
    (hc : cos 0 = 1) (hs : sin 0 = 0) (vertices : List (vec3 α)) (indicies : List Nat) :
    Basic.worldMatrix (glm cos sin) { vertices := vertices, indicies := indicies } = 1 ∧
    Basic.worldMatrix (glm cos sin) (Basic.quad α) = 1 ∧
    (Basic.quad α).position = ⟨0, 0, 0⟩ ∧ (Basic.quad α).rotation = ⟨0, 0, 0⟩ ∧
    (Basic.quad α).scale = ⟨1, 1, 1⟩ := by
  have key : glmTranslate (⟨0, 0, 0⟩ : vec3 α) * glmYawPitchRoll cos sin 0 0 0 *
      glmScale (⟨1, 1, 1⟩ : vec3 α) = 1 := by
    ext i j
    fin_cases i <;> fin_cases j <;>
      simp [glmTranslate, glmYawPitchRoll, glmScale, Matrix.mul_apply, Fin.sum_univ_four, hc, hs,
        Matrix.vecHead, Matrix.vecTail]
  exact ⟨key, key, rfl, rfl, rfl⟩

/-- Witness for C3 at the real cosine and sine. -/
theorem Basic.worldMatrix_default_eq_one_witness :
    Real.cos 0 = 1 ∧ Real.sin 0 = 0 ∧
    (Basic.worldMatrix (glm Real.cos Real.sin) { vertices := [], indicies := [] } = 1 ∧
     Basic.worldMatrix (glm Real.cos Real.sin) (Basic.quad ℝ) = 1 ∧
     (Basic.quad ℝ).position = ⟨0, 0, 0⟩ ∧ (Basic.quad ℝ).rotation = ⟨0, 0, 0⟩ ∧
     (Basic.quad ℝ).scale = ⟨1, 1, 1⟩) :=
  ⟨Real.cos_zero, Real.sin_zero,
    Basic.worldMatrix_default_eq_one Real.cos Real.sin Real.cos_zero Real.sin_zero [] []⟩

/-! ### The resize callback -/

/-- C8: for every width and height the resize callback is the single call
`glViewport(0, 0, width, height)`; it sets the viewport to that rectangle and leaves
every other part of the state as it was: the object names held by the program, every
buffer data store, the bindings and the vertex array state; it allocates nothing. -/
theorem Source.resizeCallback_changes_only_viewport (width height : Int) (s : State) :
    exec (Source.resizeCallback width height) s = { s with viewport := (0, 0, width, height) } ∧
    (exec (Source.resizeCallback width height) s).vars = s.vars ∧
    (∀ name, (exec (Source.resizeCallback width height) s).store name = s.store name) ∧
    (exec (Source.resizeCallback width height) s).nextBuffer = s.nextBuffer ∧
    (∀ c ∈ Source.resizeCallback width height, c.allocates = false) := by
  refine ⟨rfl, rfl, fun _ => rfl, rfl, ?_⟩
  intro c hc
  simp only [Source.resizeCallback, List.mem_singleton] at hc
  subst hc
  rfl

/-! ### Running the programs on the context model -/

theorem exec_append (a b : List Call) (s : State) : exec (a ++ b) s = exec b (exec a s) := by
  induction a generalizing s with
  | nil => rfl
  | cons c cs ih => simp [exec, ih]

theorem drawStates_append (a b : List Call) (s : State) :
    drawStates (a ++ b) s = drawStates a s ++ drawStates b (exec a s) := by
  induction a generalizing s with
  | nil => rfl
  | cons c cs ih => simp [drawStates, exec, ih]

theorem Source.exec_upload :
    exec (Source.init ++ Source.upload) State.initial = Source.ready (0, 0, 0, 0) := rfl

theorem Source.exec_upload_only : exec Source.upload State.initial = Source.ready (0, 0, 0, 0) := rfl

theorem Source.drawStates_upload :
    drawStates (Source.init ++ Source.upload) State.initial = [] := rfl

theorem Source.exec_body_ready (v : Int × Int × Int × Int) :
    exec (.glfwWindowShouldClose :: Source.body) (Source.ready v) = Source.steady v := rfl

theorem Source.exec_body_steady (v : Int × Int × Int × Int) :
    exec (.glfwWindowShouldClose :: Source.body) (Source.steady v) = Source.steady v := rfl

theorem Source.drawStates_body_ready (v : Int × Int × Int × Int) :
    drawStates (.glfwWindowShouldClose :: Source.body) (Source.ready v) =
      [(Source.drawing v, Source.drawCall)] := rfl

theorem Source.drawStates_body_steady (v : Int × Int × Int × Int) :
    drawStates (.glfwWindowShouldClose :: Source.body) (Source.steady v) =
      [(Source.drawing v, Source.drawCall)] := rfl

theorem Basic.quad_exec_upload (v : Int × Int × Int × Int) :
    exec (Basic.upload (Basic.quad ℚ)) { State.initial with viewport := v } = Basic.ready v := rfl

theorem Basic.quad_exec_frame (v : Int × Int × Int × Int) :
    exec (Basic.frame (Basic.quad ℚ)) (Basic.ready v) = Basic.ready v := rfl

theorem Basic.quad_drawStates_frame (v : Int × Int × Int × Int) :
    drawStates (Basic.frame (Basic.quad ℚ)) (Basic.ready v) =
      [(Basic.drawing v, Basic.drawCall (Basic.quad ℚ))] := rfl

theorem drawStates_eq_nil (cs : List Call) (s : State) (h : ∀ c ∈ cs, c.isDraw = false) :
    drawStates cs s = [] := by
  induction cs generalizing s with
  | nil => rfl
  | cons c cs ih =>
    have hc : c.isDraw = false := h c (List.mem_cons_self _ _)
    have ht : ∀ d ∈ cs, d.isDraw = false := fun d hd => h d (List.mem_cons_of_mem _ hd)
    simp [drawStates, hc, ih _ ht]

theorem Source.exec_resizes (rs : List (Int × Int)) (v : Int × Int × Int × Int) :
    exec (rs.flatMap (fun e => Source.resizeCallback e.1 e.2)) (Source.steady v) =
      Source.steady (Source.viewportAfter v rs) := by
  induction rs generalizing v with
  | nil => rfl
  | cons e rest ih =>
    simp only [List.flatMap_cons, Source.resizeCallback, List.singleton_append, exec,
      Source.viewportAfter]
    exact ih (0, 0, e.1, e.2)

theorem Source.drawStates_resizes (rs : List (Int × Int)) (s : State) :
    drawStates (rs.flatMap (fun e => Source.resizeCallback e.1 e.2)) s = [] := by
  apply drawStates_eq_nil
  intro c hc
  simp only [List.mem_flatMap, Source.resizeCallback, List.mem_singleton] at hc
  obtain ⟨e, -, rfl⟩ := hc
  rfl

theorem Source.frame_split (r : List (Int × Int)) :
    Source.frame r = (.glfwWindowShouldClose :: Source.body) ++
      r.flatMap (fun e => Source.resizeCallback e.1 e.2) := rfl

theorem Source.exec_frame (r : List (Int × Int)) (v : Int × Int × Int × Int) :
    exec (Source.frame r) (Source.ready v) = Source.steady (Source.viewportAfter v r) ∧
    exec (Source.frame r) (Source.steady v) = Source.steady (Source.viewportAfter v r) := by
  rw [Source.frame_split, exec_append, exec_append, Source.exec_body_ready,
    Source.exec_body_steady, Source.exec_resizes]
  exact ⟨rfl, rfl⟩

theorem Source.drawStates_frame (r : List (Int × Int)) (v : Int × Int × Int × Int) :
    drawStates (Source.frame r) (Source.ready v) = [(Source.drawing v, Source.drawCall)] ∧
    drawStates (Source.frame r) (Source.steady v) = [(Source.drawing v, Source.drawCall)] := by
  rw [Source.frame_split, drawStates_append, drawStates_append, Source.drawStates_body_ready,
    Source.drawStates_body_steady, Source.drawStates_resizes, Source.drawStates_resizes]
  exact ⟨rfl, rfl⟩

theorem Source.drawStates_loop (frames : List (List (Int × Int))) (rest : List Call)
    (hrest : ∀ c ∈ rest, c.isDraw = false) (v : Int × Int × Int × Int) :
    drawStates (Source.loop frames ++ rest) (Source.steady v) =
      (Source.drawViewports v frames).map (fun w => (Source.drawing w, Source.drawCall)) := by
  induction frames generalizing v with
  | nil =>
    apply drawStates_eq_nil
    intro c hc
    simp only [Source.loop, List.singleton_append, List.mem_cons] at hc
    rcases hc with rfl | hc
    · rfl
    · exact hrest c hc
  | cons r more ih =>
    rw [Source.loop, List.append_assoc, drawStates_append, (Source.drawStates_frame r v).2,
      (Source.exec_frame r v).2, ih]
    rfl

theorem Source.drawStates_main (env : Env) :
    drawStates (Source.main env).calls State.initial =
      (Source.drawViewports (0, 0, 0, 0) env.frames).map
        (fun w => (Source.drawing w, Source.drawCall)) := by
  have hrest : ∀ c ∈ Source.release ++ [Call.glfwTerminate], c.isDraw = false := by
    intro c hc
    simp only [Source.release, List.cons_append, List.nil_append, List.mem_cons,
      List.mem_singleton, List.not_mem_nil, or_false] at hc
    rcases hc with rfl | rfl | rfl <;> rfl
  show drawStates (Source.init ++ Source.upload ++ Source.loop env.frames ++ Source.release ++
    [Call.glfwTerminate]) State.initial = _
  rw [List.append_assoc, List.append_assoc, drawStates_append, Source.drawStates_upload,
    Source.exec_upload, List.nil_append]
  cases hf : env.frames with
  | nil =>
    apply drawStates_eq_nil
    intro c hc
    simp only [Source.loop, List.singleton_append, List.mem_cons] at hc
    rcases hc with rfl | hc
    · rfl
    · exact hrest c hc
  | cons r more =>
    rw [Source.loop, List.append_assoc, drawStates_append, (Source.drawStates_frame r _).1,
      (Source.exec_frame r _).1, Source.drawStates_loop more _ hrest]
    rfl

theorem Source.length_drawViewports (v : Int × Int × Int × Int) (frames : List (List (Int × Int))) :
    (Source.drawViewports v frames).length = frames.length := by
  induction frames generalizing v with
  | nil => rfl
  | cons r more ih => simp [Source.drawViewports, ih]

theorem Basic.quad_drawStates_loop (n : Nat) (rest : List Call)
    (hrest : ∀ c ∈ rest, c.isDraw = false) (v : Int × Int × Int × Int) :
    drawStates (Basic.loop (Basic.quad ℚ) n ++ rest) (Basic.ready v) =
      List.replicate n (Basic.drawing v, Basic.drawCall (Basic.quad ℚ)) := by
  induction n with
  | zero =>
    apply drawStates_eq_nil
    intro c hc
    simp only [Basic.loop, List.singleton_append, List.mem_cons] at hc
    rcases hc with rfl | hc
    · rfl
    · exact hrest c hc
  | succ n ih =>
    rw [Basic.loop, List.append_assoc, drawStates_append, Basic.quad_drawStates_frame,
      Basic.quad_exec_frame, ih]
    rfl

theorem Basic.quad_drawStates_main (env : Env) :
    drawStates (Basic.main env).calls State.initial =
      if env.windowOk = true ∧ env.glewInitOk = true then
        List.replicate env.frames.length
          (Basic.drawing (Basic.viewportOf env), Basic.drawCall (Basic.quad ℚ))
      else [] := by
  have hrest : ∀ c ∈ Basic.release ++ [Call.glfwTerminate], c.isDraw = false := by
    intro c hc
    simp only [Basic.release, List.cons_append, List.nil_append, List.mem_cons,
      List.mem_singleton, List.not_mem_nil, or_false] at hc
    rcases hc with rfl | rfl | rfl | rfl <;> rfl
  unfold Basic.main
  cases hw : env.windowOk
  · rfl
  · cases hg : env.glewInitOk
    · rfl
    · simp only [Bool.true_eq_false, if_false, and_self, if_true]
      rw [List.append_assoc, List.append_assoc, List.append_assoc, List.append_assoc,
        drawStates_append]
      have h1 : exec (Basic.init ++ [Call.glfwMakeContextCurrent, Call.glewInit,
          Call.glViewport 0 0 env.framebufferSize.1 env.framebufferSize.2]) State.initial =
          { State.initial with viewport := Basic.viewportOf env } := rfl
      have h2 : drawStates (Basic.init ++ [Call.glfwMakeContextCurrent, Call.glewInit,
          Call.glViewport 0 0 env.framebufferSize.1 env.framebufferSize.2]) State.initial =
          [] := rfl
      rw [h1, h2, List.nil_append, drawStates_append, Basic.quad_exec_upload]
      have h3 : drawStates (Basic.upload (Basic.quad ℚ))
          { State.initial with viewport := Basic.viewportOf env } = [] := rfl
      rw [h3, List.nil_append]
      exact Basic.quad_drawStates_loop env.frames.length _ hrest (Basic.viewportOf env)

/-! ### The draw calls -/

theorem Source.drawInBounds_drawing (v : Int × Int × Int × Int) :
    drawInBounds (Source.drawing v) Source.drawCall := by
  refine ⟨⟨⟨24, .uints Source.indices⟩, rfl, by decide⟩, ?_⟩
  intro i hi a ha
  have hi2 : i ∈ Source.indices := hi
  have ha2 : a ∈ [(⟨true, 2, 0, 0, 1⟩ : Attrib)] := ha
  have hlt : i < 4 := by
    simp only [Source.indices, List.mem_cons, List.mem_singleton, List.not_mem_nil,
      or_false] at hi2
    omega
  rw [List.mem_singleton] at ha2
  subst ha2
  show 0 + i * 8 + 2 * 4 ≤ 32
  omega

theorem Basic.quad_drawInBounds_drawing (v : Int × Int × Int × Int) :
    drawInBounds (Basic.drawing v) (Basic.drawCall (Basic.quad ℚ)) := by
  refine ⟨⟨⟨12, .ushorts (Basic.quad ℚ).indicies⟩, rfl, by decide⟩, ?_⟩
  intro i hi a ha
  have hi2 : i ∈ [0, 1, 2, 2, 1, 3] := hi
  have ha2 : a ∈ [(⟨true, 3, 24, 0, 1⟩ : Attrib), ⟨true, 3, 24, 12, 1⟩] := ha
  have hlt : i < 4 := by
    simp only [List.mem_cons, List.mem_singleton, List.not_mem_nil, or_false] at hi2
    omega
  simp only [List.mem_cons, List.mem_singleton, List.not_mem_nil, or_false] at ha2
  rcases ha2 with rfl | rfl
  · show 0 + i * 24 + 3 * 4 ≤ 96
    omega
  · show 12 + i * 24 + 3 * 4 ≤ 96
    omega

/-- C5: in both programs every iteration of the render loop contains exactly one
draw call, an indexed `GL_TRIANGLES` draw at offset 0 whose count is the number of
indices held by the bound index buffer, which is the whole uploaded index sequence;
the indices it reads are all of them, in order; a run makes one such draw per
iteration. -/
theorem draw_uses_full_index_count (env : Env) :
    (∀ r, (Source.frame r).filter Call.isDraw =
        [.glDrawElements .GL_TRIANGLES Source.indices.length .GL_UNSIGNED_INT 0]) ∧
    (drawStates (Source.main env).calls State.initial).length = env.frames.length ∧
    (∀ p ∈ drawStates (Source.main env).calls State.initial,
        storedIndices p.1 = Source.indices ∧
        p.2 = .glDrawElements .GL_TRIANGLES (storedIndices p.1).length .GL_UNSIGNED_INT 0 ∧
        indicesRead p.1 (storedIndices p.1).length .GL_UNSIGNED_INT 0 = storedIndices p.1) ∧
    (Basic.frame (Basic.quad ℚ)).filter Call.isDraw =
        [.glDrawElements .GL_TRIANGLES (Basic.quad ℚ).indicies.length .GL_UNSIGNED_SHORT 0] ∧
    (drawStates (Basic.main env).calls State.initial).length =
        (if env.windowOk = true ∧ env.glewInitOk = true then env.frames.length else 0) ∧
    (∀ p ∈ drawStates (Basic.main env).calls State.initial,
        storedIndices p.1 = (Basic.quad ℚ).indicies ∧
        p.2 = .glDrawElements .GL_TRIANGLES (storedIndices p.1).length .GL_UNSIGNED_SHORT 0 ∧
        indicesRead p.1 (storedIndices p.1).length .GL_UNSIGNED_SHORT 0 = storedIndices p.1) := by
  refine ⟨?_, ?_, ?_, rfl, ?_, ?_⟩
  · intro r
    rw [Source.frame_split, List.filter_append]
    have h : (r.flatMap (fun e => Source.resizeCallback e.1 e.2)).filter Call.isDraw = [] := by
      rw [List.filter_eq_nil_iff]
      intro c hc
      simp only [List.mem_flatMap, Source.resizeCallback, List.mem_singleton] at hc
      obtain ⟨e, -, rfl⟩ := hc
      simp [Call.isDraw]
    rw [h]
    rfl
  · rw [Source.drawStates_main, List.length_map, Source.length_drawViewports]
  · intro p hp
    rw [Source.drawStates_main, List.mem_map] at hp
    obtain ⟨w, -, rfl⟩ := hp
    exact ⟨rfl, rfl, rfl⟩
  · rw [Basic.quad_drawStates_main]
    split <;> simp
  · intro p hp
    rw [Basic.quad_drawStates_main] at hp
    split at hp
    · obtain rfl := List.eq_of_mem_replicate hp
      exact ⟨rfl, rfl, rfl⟩
    · simp at hp

/-- C10: in both programs every draw call of a run reads inside the uploaded data.
In `src/source/main.cpp` the draw names 6 indices of 4 bytes, the bound index store
has 6 * 4 = 24 bytes, attribute 0 (2 floats, tight stride 8, offset 0) sources the
32-byte vertex store; in `src/BasicOpenGLIndexBuffer/main.cpp` the draw names 6
indices of 2 bytes, the index store has 12 bytes, attributes 0 and 1 (3 floats,
stride 24, offsets 0 and 12) source the 96-byte vertex store.  Every stored index
is below 4 and every attribute byte range of every index read lies in the vertex
store. -/
theorem draws_read_inside_uploaded_data (env : Env) :
    (∀ p ∈ drawStates (Source.main env).calls State.initial,
        p.2 = .glDrawElements .GL_TRIANGLES 6 .GL_UNSIGNED_INT 0 ∧
        p.1.store p.1.currentVertexArray.elementBuffer =
          some ⟨6 * IndexType.GL_UNSIGNED_INT.width, .uints Source.indices⟩ ∧
        (∀ i ∈ storedIndices p.1, i < 4) ∧
        enabledAttribs p.1 = [⟨true, 2, 0, 0, p.1.vars.vbo⟩] ∧
        (enabledAttribs p.1).map Attrib.effectiveStride = [8] ∧
        p.1.store p.1.vars.vbo = some ⟨32, .floats Source.verticesWithIndex⟩ ∧
        drawInBounds p.1 p.2) ∧
    (∀ p ∈ drawStates (Basic.main env).calls State.initial,
        p.2 = .glDrawElements .GL_TRIANGLES 6 .GL_UNSIGNED_SHORT 0 ∧
        p.1.store p.1.currentVertexArray.elementBuffer =
          some ⟨6 * IndexType.GL_UNSIGNED_SHORT.width, .ushorts (Basic.quad ℚ).indicies⟩ ∧
        (∀ i ∈ storedIndices p.1, i < 4) ∧
        enabledAttribs p.1 =
          [⟨true, 3, 24, 0, p.1.vars.quadVBO⟩, ⟨true, 3, 24, 12, p.1.vars.quadVBO⟩] ∧
        (enabledAttribs p.1).map Attrib.effectiveStride = [24, 24] ∧
        p.1.store p.1.vars.quadVBO = some ⟨96, .vec3s (Basic.quad ℚ).vertices⟩ ∧
        drawInBounds p.1 p.2) := by
  constructor
  · intro p hp
    rw [Source.drawStates_main, List.mem_map] at hp
    obtain ⟨w, -, rfl⟩ := hp
    refine ⟨rfl, rfl, ?_, rfl, rfl, rfl, Source.drawInBounds_drawing w⟩
    intro i hi
    have hi2 : i ∈ [0, 1, 2, 2, 1, 3] := hi
    simp only [List.mem_cons, List.mem_singleton, List.not_mem_nil, or_false] at hi2
    omega
  · intro p hp
    rw [Basic.quad_drawStates_main] at hp
    split at hp
    · obtain rfl := List.eq_of_mem_replicate hp
      refine ⟨rfl, rfl, ?_, rfl, rfl, rfl, Basic.quad_drawInBounds_drawing _⟩
      intro i hi
      have hi2 : i ∈ [0, 1, 2, 2, 1, 3] := hi
      simp only [List.mem_cons, List.mem_singleton, List.not_mem_nil, or_false] at hi2
      omega
    · simp at hp

/-! ### Upload -/

theorem take_mul_length_div {β : Type} (l : List β) (k : Nat) (hk : 0 < k) :
    l.take (k * l.length / k) = l := by
  rw [Nat.mul_div_cancel_left _ hk, List.take_length]

theorem Basic.exec_upload_any (q : Basic.shape ℚ) :
    (exec (Basic.upload q) State.initial).vars = ⟨0, 0, 1, 1, 2⟩ ∧
    (exec (Basic.upload q) State.initial).stores =
      [(2, ⟨sizeof_GLushort * q.indicies.length, .ushorts q.indicies⟩),
       (1, ⟨sizeof_vec3 * q.vertices.length, .vec3s q.vertices⟩)] := by
  refine ⟨rfl, ?_⟩
  have h : (exec (Basic.upload q) State.initial).stores =
      [(2, ⟨sizeof_GLushort * q.indicies.length,
            .ushorts (q.indicies.take (sizeof_GLushort * q.indicies.length / sizeof_GLushort))⟩),
       (1, ⟨sizeof_vec3 * q.vertices.length,
            .vec3s (q.vertices.take (sizeof_vec3 * q.vertices.length / sizeof_vec3))⟩)] := rfl
  rw [h, take_mul_length_div _ _ (by decide), take_mul_length_div _ _ (by decide)]

/-- C1 (as amended): the upload step makes no test on the indices.  For every
vertex sequence and every index sequence, in range or not, the upload of
`src/BasicOpenGLIndexBuffer/main.cpp` completes and the vertex buffer and the index
buffer hold the whole sequences; the upload of `src/source/main.cpp` completes and
its buffers hold the 8 floats and the 6 indices.  The index sequences the two
programs upload have every index below the vertex count 4. -/
theorem upload_copies_without_validation (q : Basic.shape ℚ) :
    (∃ s, Basic.Upload q State.initial = .ok s ∧
        s.store s.vars.quadVBO =
          some ⟨sizeof_vec3 * q.vertices.length, .vec3s q.vertices⟩ ∧
        s.store s.vars.quadIBO =
          some ⟨sizeof_GLushort * q.indicies.length, .ushorts q.indicies⟩) ∧
    (∃ s, Source.Upload State.initial = .ok s ∧
        s.store s.vars.vbo = some ⟨32, .floats Source.verticesWithIndex⟩ ∧
        s.store s.vars.indexBuffer = some ⟨24, .uints Source.indices⟩) ∧
    Source.verticesWithIndex.length / 2 = 4 ∧ (∀ i ∈ Source.indices, i < 4) ∧
    (Basic.quad ℚ).vertices.length / 2 = 4 ∧ (∀ i ∈ (Basic.quad ℚ).indicies, i < 4) := by
  refine ⟨⟨exec (Basic.upload q) State.initial, rfl, ?_, ?_⟩,
    ⟨exec Source.upload State.initial, rfl, rfl, rfl⟩, rfl, by decide, rfl, by decide⟩
  · obtain ⟨hv, hs⟩ := Basic.exec_upload_any q
    simp [State.store, hv, hs]
  · obtain ⟨hv, hs⟩ := Basic.exec_upload_any q
    simp [State.store, hv, hs]

/-- C1 (counterexample): the index sequence `0, 1, 9` refers to a vertex that does
not exist (the vertex array has 8 entries), yet the upload does not fail with
`InvalidIndexError`: it completes and the index buffer holds `0, 1, 9`. -/
theorem Basic.upload_accepts_out_of_range_index :
    (∃ i ∈ Basic.outOfRangeShape.indicies, Basic.outOfRangeShape.vertices.length ≤ i) ∧
    Basic.Upload Basic.outOfRangeShape State.initial ≠ .error .InvalidIndexError ∧
    ∃ s, Basic.Upload Basic.outOfRangeShape State.initial = .ok s ∧
      s.store s.vars.quadIBO = some ⟨6, .ushorts [0, 1, 9]⟩ := by
  refine ⟨⟨9, by decide, by decide⟩, ?_, exec (Basic.upload Basic.outOfRangeShape) State.initial,
    rfl, rfl⟩
  intro h
  cases h

/-! ### Lifecycle of the buffers -/

theorem pairwise_of_left {R : Call → Call → Prop} (l : List Call)
    (h : ∀ a ∈ l, ∀ b, R a b) : l.Pairwise R := by
  induction l with
  | nil => exact List.Pairwise.nil
  | cons c cs ih =>
    exact List.Pairwise.cons (fun b _ => h c (List.mem_cons_self _ _) b)
      (ih (fun a ha => h a (List.mem_cons_of_mem _ ha)))

theorem Source.frame_calls (r : List (Int × Int)) :
    ∀ c ∈ Source.frame r,
      c.isGenBuffers = false ∧ c.isDeleteBuffers = false ∧ c.isTerminate = false := by
  intro c hc
  rw [Source.frame_split, List.mem_append] at hc
  rcases hc with hc | hc
  · have h : ∀ d ∈ Call.glfwWindowShouldClose :: Source.body,
        d.isGenBuffers = false ∧ d.isDeleteBuffers = false ∧ d.isTerminate = false := by
      decide
    exact h c hc
  · simp only [List.mem_flatMap, Source.resizeCallback, List.mem_singleton] at hc
    obtain ⟨e, -, rfl⟩ := hc
    exact ⟨rfl, rfl, rfl⟩

theorem Source.loop_calls (frames : List (List (Int × Int))) :
    ∀ c ∈ Source.loop frames,
      c.isGenBuffers = false ∧ c.isDeleteBuffers = false ∧ c.isTerminate = false := by
  induction frames with
  | nil =>
    intro c hc
    simp only [Source.loop, List.mem_singleton] at hc
    subst hc
    exact ⟨rfl, rfl, rfl⟩
  | cons r more ih =>
    intro c hc
    rw [Source.loop, List.mem_append] at hc
    rcases hc with hc | hc
    · exact Source.frame_calls r c hc
    · exact ih c hc

theorem Basic.quad_loop_calls (n : Nat) :
    ∀ c ∈ Basic.loop (Basic.quad ℚ) n,
      c.isGenBuffers = false ∧ c.isDeleteBuffers = false ∧ c.isTerminate = false := by
  induction n with
  | zero =>
    intro c hc
    simp only [Basic.loop, List.mem_singleton] at hc
    subst hc
    exact ⟨rfl, rfl, rfl⟩
  | succ n ih =>
    intro c hc
    rw [Basic.loop, List.mem_append] at hc
    rcases hc with hc | hc
    · have h : ∀ d ∈ Basic.frame (Basic.quad ℚ),
          d.isGenBuffers = false ∧ d.isDeleteBuffers = false ∧ d.isTerminate = false := by
        decide
      exact h c hc
    · exact ih c hc

theorem Source.exec_loop (frames : List (List (Int × Int))) (v : Int × Int × Int × Int) :
    ∃ w, exec (Source.loop frames) (Source.steady v) = Source.steady w := by
  induction frames generalizing v with
  | nil => exact ⟨v, rfl⟩
  | cons r more ih =>
    rw [Source.loop, exec_append, (Source.exec_frame r v).2]
    exact ih _

theorem Basic.quad_exec_loop (n : Nat) (v : Int × Int × Int × Int) :
    exec (Basic.loop (Basic.quad ℚ) n) (Basic.ready v) = Basic.ready v := by
  induction n with
  | zero => rfl
  | succ n ih => rw [Basic.loop, exec_append, Basic.quad_exec_frame, ih]

/-- The shape shared by the complete runs: a front part without deletion or
teardown, then the deletions, then `glfwTerminate`. -/
theorem lifecycle_of_split (front dels : List Call)
    (hfront : ∀ c ∈ front, c.isDeleteBuffers = false ∧ c.isTerminate = false)
    (hdels : ∀ c ∈ dels, c.isDraw = false ∧ c.isTerminate = false) :
    (front ++ dels ++ [Call.glfwTerminate]).Pairwise deleteThenNoDraw ∧
    (front ++ dels ++ [Call.glfwTerminate]).Pairwise terminateThenNoDelete ∧
    (front ++ dels ++ [Call.glfwTerminate]).getLast? = some Call.glfwTerminate := by
  refine ⟨?_, ?_, ?_⟩
  · rw [List.append_assoc, List.pairwise_append]
    refine ⟨pairwise_of_left _ ?_, ?_, ?_⟩
    · intro a ha b hab
      rw [(hfront a ha).1] at hab
      cases hab
    · rw [List.pairwise_append]
      refine ⟨?_, List.pairwise_singleton _ _, ?_⟩
      · exact List.Pairwise.imp_of_mem (fun _ hb _ _ => (hdels _ hb).1)
          (List.pairwise_of_forall (R := fun _ _ => True) (fun _ _ => trivial))
      · intro a _ b hb _
        rw [List.mem_singleton] at hb
        subst hb
        rfl
    · intro a ha b _ hab
      rw [(hfront a ha).1] at hab
      cases hab
  · rw [List.pairwise_append]
    refine ⟨pairwise_of_left _ ?_, List.pairwise_singleton _ _, ?_⟩
    · intro a ha b hab
      rw [List.mem_append] at ha
      rcases ha with ha | ha
      · rw [(hfront a ha).2] at hab
        cases hab
      · rw [(hdels a ha).2] at hab
        cases hab
    · intro a ha b hb hab
      rw [List.mem_append] at ha
      rcases ha with ha | ha
      · rw [(hfront a ha).2] at hab
        cases hab
      · rw [(hdels a ha).2] at hab
        cases hab
  · simp

theorem Source.front_calls (frames : List (List (Int × Int))) :
    ∀ c ∈ Source.init ++ Source.upload ++ Source.loop frames,
      c.isDeleteBuffers = false ∧ c.isTerminate = false := by
  intro c hc
  rw [List.mem_append] at hc
  rcases hc with hc | hc
  · have h : ∀ d ∈ Source.init ++ Source.upload,
        d.isDeleteBuffers = false ∧ d.isTerminate = false := by decide
    exact h c hc
  · exact (Source.loop_calls frames c hc).2

theorem Source.exec_main_stores (env : Env) :
    (exec (Source.main env).calls State.initial).stores = [] := by
  show (exec (Source.init ++ Source.upload ++ Source.loop env.frames ++ Source.release ++
    [Call.glfwTerminate]) State.initial).stores = []
  rw [List.append_assoc, List.append_assoc, exec_append, Source.exec_upload, exec_append]
  cases env.frames with
  | nil => rfl
  | cons r more =>
    simp only [Source.loop, exec_append]
    rw [(Source.exec_frame r _).1]
    obtain ⟨w, hw⟩ := Source.exec_loop more (Source.viewportAfter (0, 0, 0, 0) r)
    rw [hw]
    rfl

theorem Basic.quad_front_calls (env : Env) :
    ∀ c ∈ Basic.init ++ [Call.glfwMakeContextCurrent, Call.glewInit,
          Call.glViewport 0 0 env.framebufferSize.1 env.framebufferSize.2] ++
        Basic.upload (Basic.quad ℚ) ++ [Call.Shader_load, Call.Shader_use] ++
        Basic.loop (Basic.quad ℚ) env.frames.length,
      c.isDeleteBuffers = false ∧ c.isTerminate = false := by
  intro c hc
  simp only [List.mem_append] at hc
  rcases hc with (((hc | hc) | hc) | hc) | hc
  · have h : ∀ d ∈ Basic.init, d.isDeleteBuffers = false ∧ d.isTerminate = false := by decide
    exact h c hc
  · simp only [List.mem_cons, List.mem_singleton, List.not_mem_nil, or_false] at hc
    rcases hc with rfl | rfl | rfl <;> exact ⟨rfl, rfl⟩
  · have h : ∀ d ∈ Basic.upload (Basic.quad ℚ),
        d.isDeleteBuffers = false ∧ d.isTerminate = false := by decide
    exact h c hc
  · simp only [List.mem_cons, List.mem_singleton, List.not_mem_nil, or_false] at hc
    rcases hc with rfl | rfl <;> exact ⟨rfl, rfl⟩
  · exact (Basic.quad_loop_calls _ c hc).2

theorem Basic.quad_filter_loop (n : Nat) :
    (Basic.loop (Basic.quad ℚ) n).filter Call.isGenBuffers = [] ∧
    (Basic.loop (Basic.quad ℚ) n).filter Call.isDeleteBuffers = [] := by
  constructor <;> rw [List.filter_eq_nil_iff] <;> intro c hc
  · simp [(Basic.quad_loop_calls n c hc).1]
  · simp [(Basic.quad_loop_calls n c hc).2.1]

theorem Source.filter_loop (frames : List (List (Int × Int))) :
    (Source.loop frames).filter Call.isGenBuffers = [] ∧
    (Source.loop frames).filter Call.isDeleteBuffers = [] := by
  constructor <;> rw [List.filter_eq_nil_iff] <;> intro c hc
  · simp [(Source.loop_calls frames c hc).1]
  · simp [(Source.loop_calls frames c hc).2.1]

/-- C6: for every number of iterations of the render loop, a run of either program
creates each buffer once (one `glGenBuffers` per buffer variable), deletes each
created buffer exactly once, makes no draw call after a deletion and no deletion
after `glfwTerminate`, which is the last call of every run that created buffers;
when the run ends no buffer data store is left.  A run of
`src/BasicOpenGLIndexBuffer/main.cpp` that stops during initialization creates and
deletes no buffer. -/
theorem buffers_created_and_deleted_once (env : Env) :
    ((Source.main env).calls.filter Call.isGenBuffers =
        [.glGenBuffers .vbo, .glGenBuffers .indexBuffer] ∧
     (Source.main env).calls.filter Call.isDeleteBuffers =
        [.glDeleteBuffers .vbo, .glDeleteBuffers .indexBuffer] ∧
     (Source.main env).calls.Pairwise deleteThenNoDraw ∧
     (Source.main env).calls.Pairwise terminateThenNoDelete ∧
     (Source.main env).calls.getLast? = some .glfwTerminate ∧
     (exec (Source.main env).calls State.initial).stores = []) ∧
    ((Basic.main env).calls.filter Call.isGenBuffers =
        (if env.windowOk = true ∧ env.glewInitOk = true then
          [.glGenBuffers .quadVBO, .glGenBuffers .quadIBO] else []) ∧
     (Basic.main env).calls.filter Call.isDeleteBuffers =
        (if env.windowOk = true ∧ env.glewInitOk = true then
          [.glDeleteBuffers .quadVBO, .glDeleteBuffers .quadIBO] else []) ∧
     (Basic.main env).calls.Pairwise deleteThenNoDraw ∧
     (Basic.main env).calls.Pairwise terminateThenNoDelete ∧
     ((Basic.main env).calls.filter Call.isGenBuffers = [] ∨
        (Basic.main env).calls.getLast? = some .glfwTerminate) ∧
     (exec (Basic.main env).calls State.initial).stores = []) := by
  have hrel : ∀ c ∈ Source.release, c.isDraw = false ∧ c.isTerminate = false := by decide
  have hrelB : ∀ c ∈ Basic.release, c.isDraw = false ∧ c.isTerminate = false := by decide
  constructor
  · obtain ⟨h1, h2, h3⟩ := lifecycle_of_split _ _ (Source.front_calls env.frames) hrel
    refine ⟨?_, ?_, h1, h2, h3, Source.exec_main_stores env⟩
    · show (Source.init ++ Source.upload ++ Source.loop env.frames ++ Source.release ++
        [Call.glfwTerminate]).filter Call.isGenBuffers = _
      rw [List.filter_append, List.filter_append, List.filter_append,
        (Source.filter_loop env.frames).1]
      rfl
    · show (Source.init ++ Source.upload ++ Source.loop env.frames ++ Source.release ++
        [Call.glfwTerminate]).filter Call.isDeleteBuffers = _
      rw [List.filter_append, List.filter_append, List.filter_append,
        (Source.filter_loop env.frames).2]
      rfl
  · unfold Basic.main
    cases hw : env.windowOk
    · simp only [if_true, Bool.false_eq_true, false_and, if_false]
      have hfront : ∀ c ∈ Basic.init,
          c.isDeleteBuffers = false ∧ c.isTerminate = false := by decide
      refine ⟨rfl, rfl, pairwise_of_left _ ?_, pairwise_of_left _ ?_, Or.inl rfl, rfl⟩
      · intro a ha b hab
        rw [(hfront a ha).1] at hab
        cases hab
      · intro a ha b hab
        rw [(hfront a ha).2] at hab
        cases hab
    · cases hg : env.glewInitOk
      · simp only [Bool.true_eq_false, if_false, if_true, Bool.false_eq_true, and_false]
        have hfront : ∀ c ∈ Basic.init ++ [Call.glfwMakeContextCurrent, Call.glewInit],
            c.isDeleteBuffers = false ∧ c.isTerminate = false := by decide
        refine ⟨rfl, rfl, pairwise_of_left _ ?_, pairwise_of_left _ ?_, Or.inl rfl, rfl⟩
        · intro a ha b hab
          rw [(hfront a ha).1] at hab
          cases hab
        · intro a ha b hab
          rw [(hfront a ha).2] at hab
          cases hab
      · simp only [Bool.true_eq_false, if_false, and_self, if_true]
        obtain ⟨h1, h2, h3⟩ := lifecycle_of_split _ _ (Basic.quad_front_calls env) hrelB
        refine ⟨?_, ?_, h1, h2, Or.inr h3, ?_⟩
        · rw [List.filter_append, List.filter_append, List.filter_append, List.filter_append,
            List.filter_append, List.filter_append, (Basic.quad_filter_loop _).1]
          rfl
        · rw [List.filter_append, List.filter_append, List.filter_append, List.filter_append,
            List.filter_append, List.filter_append, (Basic.quad_filter_loop _).2]
          rfl
        · rw [List.append_assoc, List.append_assoc, List.append_assoc, List.append_assoc,
            exec_append]
          have h1 : exec (Basic.init ++ [Call.glfwMakeContextCurrent, Call.glewInit,
              Call.glViewport 0 0 env.framebufferSize.1 env.framebufferSize.2]) State.initial =
              { State.initial with viewport := Basic.viewportOf env } := rfl
          rw [h1, exec_append, Basic.quad_exec_upload, exec_append]
          have h2 : exec [Call.Shader_load, Call.Shader_use] (Basic.ready (Basic.viewportOf env)) =
              Basic.ready (Basic.viewportOf env) := rfl
          rw [h2, exec_append, Basic.quad_exec_loop]
          rfl

/-! ### Initialization failures -/

/-- C7 (counterexample): in `src/source/main.cpp`, when `glfwInit` fails the run
prints no diagnostic and the next call is the window call `glfwCreateWindow`; in
`src/BasicOpenGLIndexBuffer/main.cpp` the call after `glfwInit` is the window call
`glfwWindowHint`, whatever `glfwInit` returned. -/
theorem Source.main_continues_after_failed_init :
    failingEnv.glfwInitOk = false ∧
    (Source.main failingEnv).stdout = [] ∧
    (Source.main failingEnv).calls.take 2 =
      [.glfwInit, .glfwCreateWindow 800 600 "Index Buffering!"] ∧
    (Call.glfwCreateWindow 800 600 "Index Buffering!").isWindow = true ∧
    (Basic.main failingEnv).calls.take 2 =
      [.glfwInit, .glfwWindowHint .GLFW_CONTEXT_VERSION_MAJOR 3] ∧
    (Call.glfwWindowHint .GLFW_CONTEXT_VERSION_MAJOR 3).isWindow = true :=
  ⟨rfl, rfl, rfl, rfl, rfl, rfl⟩

/-- C7 (as amended): in `src/BasicOpenGLIndexBuffer/main.cpp`, whenever the window
was created and the extension-loader initialization `glewInit` fails, the run prints
the diagnostic "Failed to initialize GLEW" and exits with the non-zero status
`EXIT_FAILURE`; `glewInit` is its last call, so no window or graphics call follows
the failure, and the run makes no OpenGL call at all. -/
theorem Basic.main_exits_on_failed_glewInit (env : Env)
    (hw : env.windowOk = true) (hg : env.glewInitOk = false) :
    (Basic.main env).stdout = ["Failed to initialize GLEW"] ∧
    (Basic.main env).exit = some EXIT_FAILURE ∧ EXIT_FAILURE ≠ 0 ∧
    (Basic.main env).calls = Basic.init ++ [.glfwMakeContextCurrent, .glewInit] ∧
    (Basic.main env).calls.getLast? = some .glewInit ∧
    (Basic.main env).calls.count .glewInit = 1 ∧
    (∀ c ∈ (Basic.main env).calls, c.isGraphics = false) := by
  have hm : Basic.main env =
      ⟨Basic.init ++ [.glfwMakeContextCurrent, .glewInit], ["Failed to initialize GLEW"],
        some EXIT_FAILURE⟩ := by
    simp [Basic.main, hw, hg]
  rw [hm]
  exact ⟨rfl, rfl, by decide, rfl, rfl, by decide, by decide⟩

/-- Witness for C7 (as amended): an environment in which the window is created and
`glewInit` fails. -/
theorem Basic.main_exits_on_failed_glewInit_witness :
    glewFailingEnv.windowOk = true ∧ glewFailingEnv.glewInitOk = false ∧
    ((Basic.main glewFailingEnv).stdout = ["Failed to initialize GLEW"] ∧
     (Basic.main glewFailingEnv).exit = some EXIT_FAILURE ∧ EXIT_FAILURE ≠ 0 ∧
     (Basic.main glewFailingEnv).calls = Basic.init ++ [.glfwMakeContextCurrent, .glewInit] ∧
     (Basic.main glewFailingEnv).calls.getLast? = some .glewInit ∧
     (Basic.main glewFailingEnv).calls.count .glewInit = 1 ∧
     (∀ c ∈ (Basic.main glewFailingEnv).calls, c.isGraphics = false)) :=
  ⟨rfl, rfl, Basic.main_exits_on_failed_glewInit glewFailingEnv rfl rfl⟩

end IndexBuffers
